import Mathlib

/-!
Verification of the big-spella-go game core against its design specification.

This file gives a shallow embedding of the game engine, the game service
layer, the mode settings module and the ranking module, translated from the
Go sources in internal/game, internal/game/ranking and the modes package.

Modelling conventions:
* Go `int` and `int64` values are modelled by `Int` (no operation in the
  embedded fragment can overflow for the inputs of interest).
* Go `time.Time` and `time.Duration` are modelled by `Int` nanoseconds; the
  current wall-clock instant is passed explicitly to each operation that
  reads the clock.
* Go `float64` arithmetic is modelled by exact rational arithmetic over
  `Rat`; the constants 1.5, 1.3, 0.9 and 0.1 become the rationals 3/2,
  13/10, 9/10 and 1/10. Division of a nonzero float by zero yields a signed
  infinity in Go, which is modelled by an explicit case split where it
  occurs (`goDivGeNineTenths`).
* Calls to external services (DictionaryService, WordService, the SQL
  store) are modelled by passing the outcome of each call as an explicit
  `Except` argument, so a single Lean function covers every possible
  response of the environment.
* Go errors are modelled by the inductive `GameError`; wrapping with
  `fmt.Errorf(msg, err)` is modelled by the `wrap` constructor.
-/

namespace BigSpella

/-- Nanoseconds, the unit of Go `time.Duration`. -/
abbrev Duration := Int

/-- An instant, nanoseconds since the epoch (Go `time.Time`). -/
abbrev Time := Int

/-- One second in nanoseconds. -/
def second : Duration := 1000000000

/-- One minute in nanoseconds. -/
def minute : Duration := 60 * second

/-- One hour in nanoseconds. -/
def hour : Duration := 60 * minute

/-- Constant `MaxHints = 3` from internal/game/game.go. -/
def MaxHints : Int := 3

/-- Constant `TurnTimeout = 10 * time.Second` from internal/game/game.go. -/
def TurnTimeout : Duration := 10 * second

/-- Whitespace characters recognised by Go `strings.TrimSpace` for ASCII
input: tab, newline, vertical tab, form feed, carriage return, space. -/
def isSpaceChar (c : Char) : Bool :=
  c.toNat = 9 || c.toNat = 10 || c.toNat = 11 || c.toNat = 12 ||
  c.toNat = 13 || c.toNat = 32

/-- Go `strings.TrimSpace`, restricted to ASCII whitespace: drop leading and
trailing whitespace characters. -/
def trimSpace (s : String) : String :=
  String.mk (((s.data.dropWhile isSpaceChar).reverse.dropWhile isSpaceChar).reverse)

/-- Go `strings.EqualFold` restricted to ASCII: case-insensitive equality by
mapping upper-case ASCII letters to lower case on both sides. Go performs
Unicode simple folding, which agrees with this on ASCII strings. -/
def eqFold (a b : String) : Bool :=
  a.data.map Char.toLower == b.data.map Char.toLower

/-- Translation of `wordService.ValidateSpelling` from
internal/game/word_service.go: case-insensitive comparison after trimming
leading and trailing whitespace from both the word and the attempt. -/
def validateSpelling (word attempt : String) : Bool :=
  eqFold (trimSpace word) (trimSpace attempt)

/-- The `Word` record from internal/game/models.go. The metadata fields not
read by any embedded operation (etymology, pronunciation, audio URL,
timestamps and so on) are omitted. -/
structure Word where
  id : String
  word : String
  definition : String
deriving DecidableEq, Repr

/-- The `HintType` enumeration from internal/game/models.go. -/
inductive HintType where
  | definition
  | exampleSentence
  | etymology
  | sentence
  | partOfSpeech
  | pronunciation
  | phonetic
  | synonym
deriving DecidableEq, Repr

/-- The `Hint` record from internal/game/models.go. -/
structure Hint where
  type : HintType
  content : String
deriving DecidableEq, Repr

/-- The error values produced by the embedded fragment. The named
constructors correspond to the `errors.New` package-level variables of
internal/game; `wrap` models `fmt.Errorf` wrapping with a context message. -/
inductive GameError where
  | noWordSet
  | maxHintsUsed
  | turnNotActive
  | turnTimedOut
  | gameNotFound
  | gameFull
  | invalidGameState
  | notPlayerTurn
  | playerNotFound
  | dbFailure
  | dictFailure
  | wrap (context : String) (e : GameError)
deriving DecidableEq, Repr

/-- The `GameEngine` struct from internal/game/game.go. The `dict` service
field is not part of the state; each dictionary call outcome is passed to
the operation that performs the call. -/
structure GameEngine where
  id : String
  currentWord : Option Word
  wordMasked : Bool
  hintsUsed : Int
  turnStartedAt : Option Time
deriving DecidableEq, Repr

/-- Translation of `NewGameEngine`. -/
def newGameEngine (id : String) : GameEngine :=
  { id := id
    currentWord := none
    wordMasked := false
    hintsUsed := 0
    turnStartedAt := none }

/-- Translation of `GameEngine.StartTurn`. `wordInfo` is the outcome of the
call `g.dict.GetWordInfo(ctx, word)`. On failure the engine is unchanged
(the Go method returns before any assignment). -/
def GameEngine.startTurn (g : GameEngine) (wordInfo : Except GameError Word)
    (now : Time) : Except GameError GameEngine :=
  match wordInfo with
  | Except.error e => Except.error (GameError.wrap ("failed to get word info") e)
  | Except.ok w =>
      Except.ok { g with
        currentWord := some w
        wordMasked := true
        hintsUsed := 0
        turnStartedAt := some now }

/-- Translation of `GameEngine.ValidateAttempt`. Checks, in order: a word is
set, a turn is active, the turn has not timed out; then compares the attempt
with the current word using `strings.EqualFold`. -/
def GameEngine.validateAttempt (g : GameEngine) (attempt : String)
    (now : Time) : Except GameError Bool :=
  match g.currentWord with
  | none => Except.error GameError.noWordSet
  | some w =>
      match g.turnStartedAt with
      | none => Except.error GameError.turnNotActive
      | some t =>
          if now - t > TurnTimeout then Except.error GameError.turnTimedOut
          else Except.ok (eqFold attempt w.word)

/-- Translation of `GameEngine.GetHint`. `hintRes` is the outcome of the
call `g.dict.GetHint(ctx, g.CurrentWord, hintType)`. The pair returned is
(result, engine state after the call); the counter is incremented only on
the success path, after the dictionary call returned without error. -/
def GameEngine.getHint (g : GameEngine) (hintType : HintType)
    (hintRes : Except GameError String) :
    Except GameError String × GameEngine :=
  match g.currentWord with
  | none => (Except.error GameError.noWordSet, g)
  | some _ =>
      if g.hintsUsed ≥ MaxHints then (Except.error GameError.maxHintsUsed, g)
      else
        match hintRes with
        | Except.error e =>
            (Except.error (GameError.wrap ("failed to get hint") e), g)
        | Except.ok hint => (Except.ok hint, { g with hintsUsed := g.hintsUsed + 1 })

/-- Translation of `GameEngine.RevealWord`. -/
def GameEngine.revealWord (g : GameEngine) : Except GameError Unit × GameEngine :=
  match g.currentWord with
  | none => (Except.error GameError.noWordSet, g)
  | some _ => (Except.ok (), { g with wordMasked := false })

/-- One engine operation together with the environment responses it
consumes, used to state properties over arbitrary operation sequences. -/
inductive EngineOp where
  | startTurn (wordInfo : Except GameError Word) (now : Time)
  | getHint (hintType : HintType) (hintRes : Except GameError String)
  | validateAttempt (attempt : String) (now : Time)
  | revealWord

/-- The engine state reached after one operation (results are discarded;
operations that fail leave the state unchanged, exactly as in the source). -/
def step (g : GameEngine) (op : EngineOp) : GameEngine :=
  match op with
  | EngineOp.startTurn wordInfo now =>
      match GameEngine.startTurn g wordInfo now with
      | Except.ok g2 => g2
      | Except.error _ => g
  | EngineOp.getHint ht res => (GameEngine.getHint g ht res).2
  | EngineOp.validateAttempt _ _ => g
  | EngineOp.revealWord => (GameEngine.revealWord g).2

/-- The engine state reached after a sequence of operations. -/
def run (g : GameEngine) (ops : List EngineOp) : GameEngine :=
  ops.foldl step g

/-- The hint-budget invariant of claim C2. -/
def hintsInv (g : GameEngine) : Prop :=
  0 ≤ g.hintsUsed ∧ g.hintsUsed ≤ MaxHints

/-- The `GameStatus` enumeration from internal/game/models.go. -/
inductive GameStatus where
  | created
  | initializing
  | waiting
  | playing
  | active
  | finished
  | cancelled
deriving DecidableEq, Repr

/-- The `GameType` enumeration from internal/game/models.go. -/
inductive GameType where
  | solo
  | multi
  | practice
deriving DecidableEq, Repr

/-- The `GameSettings` record of package internal/game (models.go). -/
structure GameSettings where
  minPlayers : Int
  maxPlayers : Int
  timeLimit : Duration
  category : Option String
  isRanked : Bool
  elimination : Bool
  wordLevel : Int
  hintsAllowed : Int
  spellStartTimeout : Duration
deriving DecidableEq, Repr

/-- The `Player` record from internal/game/models.go. -/
structure Player where
  id : String
  gameId : String
  userId : String
  score : Int
  status : String
  isBot : Bool
  attempts : Int
  correct : Int
deriving DecidableEq, Repr

/-- The `SpellingAttempt` record from internal/game/models.go (voice data
and timestamps omitted; only `Text` is read by the embedded operations). -/
structure SpellingAttempt where
  id : String
  gameId : String
  playerId : String
  word : String
  text : String
deriving DecidableEq, Repr

/-- The `Game` row from internal/game/models.go, as read and written by the
service operations. `scores` models the jsonb `scores` column updated by
`MakeAttempt`. -/
structure Game where
  id : String
  hostId : String
  type : GameType
  status : GameStatus
  settings : GameSettings
  currentWordId : Option String
  currentTurn : Option String
  round : Int
  wordMasked : Bool
  turnStartedAt : Option Time
  scores : List (String × Int)
  players : List Player
deriving DecidableEq, Repr

/-- The jsonb update `scores = jsonb_set(scores, array[player], coalesce
(scores->player, 0) + 1)` performed by `MakeAttempt` on a correct attempt:
increment the score of the named player, creating the entry at 1 if it is
absent. -/
def bumpScore : List (String × Int) → String → List (String × Int)
  | [], p => [(p, 1)]
  | (q, n) :: rest, p =>
      if q = p then (q, n + 1) :: rest else (q, n) :: bumpScore rest p

/-- Translation of `gameService.CreateGame` from internal/game/game.go. The
generated UUID is the `newId` argument, the clock is `now` and `insertOk`
is the outcome of the SQL INSERT. The inserted row has status Initializing;
no settings validation of any kind is performed before the insert. -/
def createGame (newId hostId : String) (gameType : GameType)
    (settings : GameSettings) (now : Time) (insertOk : Bool) :
    Except GameError (Game × GameEngine) :=
  if insertOk then
    Except.ok
      ({ id := newId
         hostId := hostId
         type := gameType
         status := GameStatus.initializing
         settings := settings
         currentWordId := none
         currentTurn := none
         round := 0
         wordMasked := false
         turnStartedAt := none
         scores := []
         players := [] },
       newGameEngine newId)
  else Except.error (GameError.wrap ("failed to create game") GameError.dbFailure)

/-- Translation of `gameService.StartGame` from internal/game/game.go. The
`game` argument is the row returned by `GetGame`; `engine?` is the
`activeGames` lookup (code creates a fresh engine when absent); `randomWord`
is the outcome of `wordService.GetRandomWord`; `wordInfo` is the outcome of
the dictionary call made inside `engine.StartTurn`. The `userId` argument
is accepted and, as in the source, never examined. The only precondition
checked is that the status is Waiting; the roster and
`settings.MinPlayers` are never read. -/
def startGame (game : Game) (engine? : Option GameEngine) (userId : String)
    (randomWord : Except GameError Word) (wordInfo : Except GameError Word)
    (now : Time) : Except GameError (Game × GameEngine) :=
  if game.status ≠ GameStatus.waiting then Except.error GameError.invalidGameState
  else
    match randomWord with
    | Except.error e => Except.error (GameError.wrap ("failed to get word") e)
    | Except.ok w =>
        let engine := match engine? with
          | some e => e
          | none => newGameEngine game.id
        match GameEngine.startTurn engine wordInfo now with
        | Except.error e => Except.error (GameError.wrap ("failed to start turn") e)
        | Except.ok engine2 =>
            Except.ok
              ({ game with
                  status := GameStatus.active
                  currentWordId := some w.id
                  turnStartedAt := some now
                  wordMasked := true },
               engine2)

/-- Translation of `gameService.MakeAttempt` from internal/game/game.go.
Checks only that the game is Active and that a live engine exists; the
attempt of ANY player is then validated against the engine and, when
correct, credited to that player in the scores column. The `playerId` is
never compared against the current turn owner. -/
def makeAttempt (game : Game) (engine? : Option GameEngine) (playerId : String)
    (attempt : SpellingAttempt) (now : Time) :
    Except GameError (Game × GameEngine) :=
  if game.status ≠ GameStatus.active then Except.error GameError.invalidGameState
  else
    match engine? with
    | none => Except.error GameError.gameNotFound
    | some engine =>
        match GameEngine.validateAttempt engine attempt.text now with
        | Except.error e =>
            Except.error (GameError.wrap ("failed to validate attempt") e)
        | Except.ok isCorrect =>
            if isCorrect then
              Except.ok
                ({ game with
                    currentWordId := none
                    turnStartedAt := none
                    wordMasked := false
                    scores := bumpScore game.scores playerId },
                 engine)
            else Except.ok (game, engine)

/-- Translation of `gameService.GetHint` from internal/game/game.go. The
hint type is chosen by the source from the wall clock; it is passed here as
the `hintType` argument. `hintRes` is the outcome of the dictionary call
inside `engine.GetHint`. The `playerId` is accepted and, as in the source,
used only for event emission, never checked against the turn owner. -/
def serviceGetHint (game : Game) (engine? : Option GameEngine)
    (playerId : String) (hintType : HintType)
    (hintRes : Except GameError String) :
    Except GameError (Hint × GameEngine) :=
  if game.status ≠ GameStatus.active then Except.error GameError.invalidGameState
  else
    match engine? with
    | none => Except.error GameError.gameNotFound
    | some engine =>
        match GameEngine.getHint engine hintType hintRes with
        | (Except.error e, _) =>
            Except.error (GameError.wrap ("failed to get hint") e)
        | (Except.ok hint, engine2) =>
            Except.ok ({ type := hintType, content := hint }, engine2)

/-- Go `int(x)` conversion of a float, modelled on rationals: truncation
toward zero. -/
def truncToInt (q : Rat) : Int :=
  if 0 ≤ q then ⌊q⌋ else ⌈q⌉

/-- Go `math.Round(x)`, modelled on rationals: round half away from zero. -/
def goRound (q : Rat) : Int :=
  if 0 ≤ q then ⌊q + 1/2⌋ else ⌈q - 1/2⌉

/-- The `GameSettings` record of the modes package. -/
structure ModesSettings where
  mode : String
  maxPlayers : Int
  maxRounds : Int
  timeLimit : Duration
  wordLevel : Int
  category : String
  isTournament : Bool
  isPrivate : Bool
  enableVideo : Bool
  enableVoice : Bool
  recordGame : Bool
deriving DecidableEq, Repr

/-- Mode constant `ModeRoundRobin` of the modes package. -/
def modeRoundRobin : String := "round_robin"

/-- Mode constant `ModeRapidFire` of the modes package. -/
def modeRapidFire : String := "rapid_fire"

/-- Mode constant `ModeTotalGame` of the modes package. -/
def modeTotalGame : String := "total_game"

/-- The word-level check shared by every branch of `ValidateSettings`
(performed after the mode switch in the source). -/
def checkWordLevel (s : ModesSettings) : Except String Unit :=
  if s.wordLevel < 1 ∨ s.wordLevel > 10 then
    Except.error ("word level must be between 1-10")
  else Except.ok ()

/-- Translation of `ValidateSettings` from the modes package: a mode switch
with early returns on the first violated bound, then the word-level check. -/
def ValidateSettings (s : ModesSettings) : Except String Unit :=
  if s.mode = modeRoundRobin then
    if s.maxPlayers < 2 ∨ s.maxPlayers > 32 then
      Except.error ("round robin requires 2-32 players")
    else if s.maxRounds < 1 then
      Except.error ("round robin requires at least 1 round")
    else checkWordLevel s
  else if s.mode = modeRapidFire then
    if s.maxPlayers ≠ 2 then
      Except.error ("rapid fire is strictly 1v1")
    else if s.timeLimit < minute ∨ s.timeLimit > 30 * minute then
      Except.error ("rapid fire time limit must be between 1-30 minutes")
    else checkWordLevel s
  else if s.mode = modeTotalGame then
    if s.maxPlayers < 2 ∨ s.maxPlayers > 8 then
      Except.error ("total game requires 2-8 players")
    else if s.timeLimit < 5 * minute ∨ s.timeLimit > hour then
      Except.error ("total game time limit must be between 5-60 minutes")
    else checkWordLevel s
  else checkWordLevel s

/-- The accuracy test `float64(correct)/float64(total) >= 0.9` from
`CalculateScore`, with IEEE semantics at a zero denominator: a positive
float divided by zero is positive infinity, which passes the test, while
0/0 is NaN and a negative float divided by zero is negative infinity, both
of which fail it. For a nonzero denominator the float ratio is modelled by
the exact rational ratio. -/
def goDivGeNineTenths (correct total : Int) : Prop :=
  if total = 0 then 0 < correct
  else (9 : Rat) / 10 ≤ (correct : Rat) / (total : Rat)

instance (correct total : Int) : Decidable (goDivGeNineTenths correct total) := by
  unfold goDivGeNineTenths
  exact inferInstanceAs (Decidable _)

/-- Translation of `CalculateScore` from the modes package. The float
constants 1.5 and 1.3 are the rationals 3/2 and 13/10; `int(...)` is
truncation toward zero. -/
def CalculateScore (mode : String) (correctAttempts totalAttempts : Int)
    (averageTime : Rat) : Int :=
  if mode = modeRapidFire then
    if averageTime < 5 then
      truncToInt (((correctAttempts * 100 : Int) : Rat) * (3/2))
    else correctAttempts * 100
  else if mode = modeTotalGame then
    if goDivGeNineTenths correctAttempts totalAttempts then
      truncToInt (((correctAttempts * 100 : Int) : Rat) * (13/10))
    else correctAttempts * 100
  else correctAttempts * 100

/-- Modelled from the spec wording of claim C4: base score correct times
100; times 1.5 in rapid-fire mode when the average time is below 5.0; times
1.3 in total-game mode when correct divided by total is at least 0.9, the
division read as exact rational division (hence, by the Lean convention, a
zero denominator gives ratio 0 and the bonus does not apply); truncation
toward zero. This is the comparison point for the refinement stated by the
claim, kept separate from the translation of the source. -/
def specScore (mode : String) (correctAttempts totalAttempts : Int)
    (averageTime : Rat) : Int :=
  if mode = modeRapidFire ∧ averageTime < 5 then
    truncToInt (((correctAttempts * 100 : Int) : Rat) * (3/2))
  else if mode = modeTotalGame ∧
      (9 : Rat) / 10 ≤ (correctAttempts : Rat) / (totalAttempts : Rat) then
    truncToInt (((correctAttempts * 100 : Int) : Rat) * (13/10))
  else correctAttempts * 100

/-- Constant `GoldPoints` from internal/game/ranking/ranking.go. -/
def goldPoints : Int := 30

/-- Constant `SilverPoints` from internal/game/ranking/ranking.go. -/
def silverPoints : Int := 15

/-- Constant `BronzePoints` from internal/game/ranking/ranking.go. -/
def bronzePoints : Int := 5

/-- Translation of `CalculatePoints` from internal/game/ranking/ranking.go.
The placement switch returns 0 immediately for placements other than 1, 2
and 3; otherwise the base points are scaled by the player-count and
tournament multipliers (floats, modelled by rationals) and rounded with
`math.Round`. -/
def CalculatePoints (placement playerCount : Int) (isTournament : Bool) : Int :=
  if placement = 1 ∨ placement = 2 ∨ placement = 3 then
    goRound
      (((if placement = 1 then goldPoints
         else if placement = 2 then silverPoints
         else bronzePoints : Int) : Rat) *
       (if playerCount > 2 then 1 + ((playerCount : Rat) - 2) * (1/10) else 1) *
       (if isTournament then 3/2 else 1))
  else 0

/-- Translation of `CalculateNewRating` from
internal/game/ranking/ranking.go: add the points and clamp to [0, 1200]. -/
def CalculateNewRating (currentRating pointsEarned : Int) : Int :=
  if currentRating + pointsEarned > 1200 then 1200
  else if currentRating + pointsEarned < 0 then 0
  else currentRating + pointsEarned

/-- Placement points as the specification states them: 30 for 1st, 15 for
2nd, 5 for 3rd, 0 otherwise. -/
def specBasePoints (placement : Int) : Int :=
  if placement = 1 then 30
  else if placement = 2 then 15
  else if placement = 3 then 5
  else 0

/-- Modelled from the spec wording of claim C5: placement points scaled by
a ten percent bonus per player beyond two and by 1.5 for tournament
matches, rounded. Comparison point for the claim, separate from the
translation of the source. -/
def specPoints (placement playerCount : Int) (isTournament : Bool) : Int :=
  goRound ((specBasePoints placement : Rat) *
    (if 2 < playerCount then 1 + (1/10) * ((playerCount : Rat) - 2) else 1) *
    (if isTournament then 3/2 else 1))

/-- A concrete word used by the witness and counterexample theorems. -/
def testWord : Word :=
  { id := "w1", word := "TESTING", definition := "a test word" }

/-- An engine with the word TESTING set and a turn opened at instant 0. -/
def engineWithTesting : GameEngine :=
  { id := "g1"
    currentWord := some testWord
    wordMasked := true
    hintsUsed := 0
    turnStartedAt := some 0 }

/-- The engine state produced by `startTurn` in the C6 witness. -/
def startTurnWitnessState : GameEngine :=
  { id := "g1"
    currentWord := some testWord
    wordMasked := true
    hintsUsed := 0
    turnStartedAt := some 0 }

/-- Settings requiring two players, used by the C3 failing input. -/
def c3Settings : GameSettings :=
  { minPlayers := 2
    maxPlayers := 4
    timeLimit := 300 * second
    category := none
    isRanked := false
    elimination := false
    wordLevel := 1
    hintsAllowed := 3
    spellStartTimeout := 10 * second }

/-- The single rostered player of the C3 failing input. -/
def c3Player : Player :=
  { id := "p1"
    gameId := "game1"
    userId := "alice"
    score := 0
    status := "active"
    isBot := false
    attempts := 0
    correct := 0 }

/-- A Waiting game with one rostered player and MinPlayers = 2. -/
def c3Game : Game :=
  { id := "game1"
    hostId := "alice"
    type := GameType.multi
    status := GameStatus.waiting
    settings := c3Settings
    currentWordId := none
    currentTurn := none
    round := 0
    wordMasked := false
    turnStartedAt := none
    scores := []
    players := [c3Player] }

/-- Second rostered player for the C7 failing input. -/
def c7PlayerBob : Player :=
  { id := "p2"
    gameId := "game1"
    userId := "bob"
    score := 0
    status := "active"
    isBot := false
    attempts := 0
    correct := 0 }

/-- An Active game whose current turn belongs to alice, with bob also on
the roster. -/
def c7Game : Game :=
  { id := "game1"
    hostId := "alice"
    type := GameType.multi
    status := GameStatus.active
    settings := c3Settings
    currentWordId := some "w1"
    currentTurn := some "alice"
    round := 1
    wordMasked := true
    turnStartedAt := some 0
    scores := [("alice", 0), ("bob", 0)]
    players := [c3Player, c7PlayerBob] }

/-- A correct attempt submitted by bob, who does not own the turn. -/
def c7Attempt : SpellingAttempt :=
  { id := "a1"
    gameId := "game1"
    playerId := "bob"
    word := "TESTING"
    text := "testing" }

/-- Modes settings with word level 11, outside the allowed 1-10. -/
def c8ModesSettings : ModesSettings :=
  { mode := modeTotalGame
    maxPlayers := 6
    maxRounds := 20
    timeLimit := 30 * minute
    wordLevel := 11
    category := ""
    isTournament := false
    isPrivate := false
    enableVideo := true
    enableVoice := true
    recordGame := false }

/-- Service-layer settings with the same violating word level 11. -/
def c8GameSettings : GameSettings :=
  { minPlayers := 2
    maxPlayers := 6
    timeLimit := 30 * minute
    category := none
    isRanked := false
    elimination := false
    wordLevel := 11
    hintsAllowed := 3
    spellStartTimeout := 10 * second }

/-- The hint counter after one operation: it is reset, unchanged, or
incremented under the budget guard. -/
theorem step_hintsUsed (g : GameEngine) (op : EngineOp) :
    (step g op).hintsUsed = 0 ∨ (step g op).hintsUsed = g.hintsUsed ∨
    ((step g op).hintsUsed = g.hintsUsed + 1 ∧ g.hintsUsed < MaxHints) := by
  cases op with
  | startTurn wordInfo now =>
      cases wordInfo with
      | error e => right; left; rfl
      | ok w => left; rfl
  | getHint ht res =>
      cases hcw : g.currentWord with
      | none => right; left; simp [step, GameEngine.getHint, hcw]
      | some w =>
          by_cases hmax : g.hintsUsed ≥ MaxHints
          · right; left; simp [step, GameEngine.getHint, hcw, hmax]
          · cases res with
            | error e => right; left; simp [step, GameEngine.getHint, hcw, hmax]
            | ok s =>
                right; right
                refine ⟨?_, lt_of_not_ge hmax⟩
                simp [step, GameEngine.getHint, hcw, hmax]
  | validateAttempt a now => right; left; rfl
  | revealWord =>
      cases hcw : g.currentWord with
      | none => right; left; simp [step, GameEngine.revealWord, hcw]
      | some w => right; left; simp [step, GameEngine.revealWord, hcw]

/-- Each single operation preserves the hint-budget invariant. -/
theorem step_hintsInv (g : GameEngine) (op : EngineOp) (h : hintsInv g) :
    hintsInv (step g op) := by
  have hs := step_hintsUsed g op
  simp only [hintsInv, MaxHints] at *
  rcases hs with h1 | h1 | ⟨h1, h2⟩ <;> rw [h1] <;> omega

/-- Any operation sequence preserves the hint-budget invariant. -/
theorem run_hintsInv (ops : List EngineOp) (g : GameEngine) (h : hintsInv g) :
    hintsInv (run g ops) := by
  induction ops generalizing g with
  | nil => simpa [run] using h
  | cons op rest ih =>
      have : run g (op :: rest) = run (step g op) rest := by
        simp [run, List.foldl_cons]
      rw [this]
      exact ih _ (step_hintsInv g op h)

/-- C2: over every sequence of engine operations started from a fresh
engine, the hint counter stays within 0 and 3 at every intermediate state;
and after a turn start followed by three granted hints, a fourth GetHint
call returns the budget-exhausted error and leaves the counter at 3 and the
state unchanged. -/
theorem hint_budget_invariant :
    (∀ (id : String) (ops : List EngineOp),
        0 ≤ (run (newGameEngine id) ops).hintsUsed ∧
        (run (newGameEngine id) ops).hintsUsed ≤ 3) ∧
    (∀ (id : String) (w : Word) (now : Time) (ht : HintType)
        (h1 h2 h3 : String) (res : Except GameError String),
        let g3 := run (newGameEngine id)
          [EngineOp.startTurn (Except.ok w) now,
           EngineOp.getHint ht (Except.ok h1),
           EngineOp.getHint ht (Except.ok h2),
           EngineOp.getHint ht (Except.ok h3)]
        GameEngine.getHint g3 ht res = (Except.error GameError.maxHintsUsed, g3) ∧
        g3.hintsUsed = 3) := by
  constructor
  · intro id ops
    have h := run_hintsInv ops (newGameEngine id) ⟨le_refl 0, by norm_num [newGameEngine, MaxHints]⟩
    simpa [hintsInv, MaxHints] using h
  · intro id w now ht h1 h2 h3 res
    exact ⟨rfl, rfl⟩

/-- C6: whenever StartTurn succeeds, the new state holds the freshly
fetched word, masks it, has the hint counter reset to 0, the start time
stamped with the current instant, and the engine identity unchanged. -/
theorem startTurn_postcondition :
    ∀ (g : GameEngine) (w : Word) (now : Time) (g2 : GameEngine),
      GameEngine.startTurn g (Except.ok w) now = Except.ok g2 →
      g2.currentWord = some w ∧ g2.wordMasked = true ∧ g2.hintsUsed = 0 ∧
      g2.turnStartedAt = some now ∧ g2.id = g.id := by
  intro g w now g2 h
  simp only [GameEngine.startTurn, Except.ok.injEq] at h
  subst h
  simp

/-- Witness for C6 at a concrete prior state and word. -/
theorem startTurn_postcondition_witness :
    startTurnWitnessState.currentWord = some testWord ∧
    startTurnWitnessState.wordMasked = true ∧
    startTurnWitnessState.hintsUsed = 0 ∧
    startTurnWitnessState.turnStartedAt = some 0 ∧
    startTurnWitnessState.id = (newGameEngine ("g1")).id :=
  startTurn_postcondition (newGameEngine ("g1")) testWord 0 startTurnWitnessState (by rfl)

/-- C10: with a word set and the hint budget not exhausted, a dictionary
failure makes GetHint return a wrapped error and leaves the engine state,
in particular the hint counter, unchanged. -/
theorem getHint_error_leaves_state :
    ∀ (g : GameEngine) (w : Word) (ht : HintType) (e : GameError),
      g.currentWord = some w → g.hintsUsed < MaxHints →
      GameEngine.getHint g ht (Except.error e)
        = (Except.error (GameError.wrap ("failed to get hint") e), g) := by
  intro g w ht e hw hlt
  simp [GameEngine.getHint, hw, not_le.mpr hlt]

/-- Witness for C10 at a concrete engine with one possible hint used. -/
theorem getHint_error_leaves_state_witness :
    GameEngine.getHint engineWithTesting HintType.definition
        (Except.error GameError.dictFailure)
      = (Except.error (GameError.wrap ("failed to get hint") GameError.dictFailure),
         engineWithTesting) :=
  getHint_error_leaves_state engineWithTesting testWord HintType.definition
    GameError.dictFailure (by rfl) (by decide)

/-- C1 counterexample: the attempt with surrounding spaces is accepted by
the trimming comparison of wordService.ValidateSpelling, yet
GameEngine.ValidateAttempt, which does not trim, evaluates it to Incorrect
against the word TESTING. -/
theorem validateAttempt_does_not_trim :
    validateSpelling ("TESTING") (" TESTING ") = true ∧
    GameEngine.validateAttempt engineWithTesting (" TESTING ") 0
      = Except.ok false := by
  exact ⟨by decide, by rfl⟩

/-- C1 (amended): with a turn open and not timed out, ValidateAttempt
returns Correct exactly when the attempt equals the word under
case-insensitive comparison WITHOUT whitespace trimming; the attempts
testing and Testing match TESTING, while the attempt with surrounding
spaces does not. -/
theorem validateAttempt_case_insensitive :
    (∀ (g : GameEngine) (w : Word) (t : Time) (a : String) (now : Time),
        g.currentWord = some w → g.turnStartedAt = some t →
        now - t ≤ TurnTimeout →
        GameEngine.validateAttempt g a now = Except.ok (eqFold a w.word)) ∧
    eqFold ("testing") ("TESTING") = true ∧
    eqFold ("Testing") ("TESTING") = true ∧
    eqFold (" TESTING ") ("TESTING") = false := by
  refine ⟨?_, by decide, by decide, by decide⟩
  intro g w t a now hw ht hle
  simp [GameEngine.validateAttempt, hw, ht, not_lt.mpr hle]

/-- Witness for C1 (amended) at a concrete open turn. -/
theorem validateAttempt_case_insensitive_witness :
    GameEngine.validateAttempt engineWithTesting ("Testing") 0
      = Except.ok (eqFold ("Testing") (testWord.word)) :=
  validateAttempt_case_insensitive.1 engineWithTesting testWord 0 ("Testing") 0
    (by rfl) (by rfl) (by decide)

/-- C3 evaluation: on a Waiting game whose roster size 1 is below
MinPlayers = 2, StartGame nevertheless succeeds and moves the game to
Active; the code never reads the roster or MinPlayers. -/
theorem startGame_ignores_min_players :
    (c3Game.players.length : Int) < c3Game.settings.minPlayers ∧
    (startGame c3Game (some (newGameEngine ("game1"))) ("alice")
        (Except.ok testWord) (Except.ok testWord) 0).map (fun p => p.1.status)
      = Except.ok GameStatus.active := by
  exact ⟨by decide, by rfl⟩

/-- C7 evaluation: on an Active game whose current turn belongs to alice,
an attempt submitted by bob is validated and credited to bob, and a hint
request by bob is served; neither operation performs any turn-ownership
check or returns an unauthorized-turn error. -/
theorem makeAttempt_ignores_turn_owner :
    c7Game.currentTurn = some ("alice") ∧
    (makeAttempt c7Game (some engineWithTesting) ("bob") c7Attempt 1).map
        (fun p => p.1.scores)
      = Except.ok ([("alice", 0), ("bob", 1)]) ∧
    (serviceGetHint c7Game (some engineWithTesting) ("bob") HintType.definition
        (Except.ok ("sample hint"))).map (fun p => p.1)
      = Except.ok ({ type := HintType.definition, content := "sample hint" } : Hint) := by
  exact ⟨rfl, by rfl, by rfl⟩

/-- C8 counterexample: settings with word level 11 are rejected by
ValidateSettings, yet CreateGame accepts settings with the same violating
word level and creates the session (status Initializing): the validation is
never invoked on the creation path. -/
theorem createGame_does_not_validate :
    ValidateSettings c8ModesSettings
      = Except.error ("word level must be between 1-10") ∧
    (createGame ("game2") ("alice") GameType.multi c8GameSettings 0 true).map
        (fun p => p.1.status)
      = Except.ok GameStatus.initializing := by
  exact ⟨by rfl, by rfl⟩

/-- C8 (amended): ValidateSettings returns an error, never clamping,
whenever the word level is outside 1-10 or the player count or time limit
is outside the bounds of the mode; but the service CreateGame performs no
validation and creates the session with any settings whenever the insert
succeeds. -/
theorem validateSettings_rejects_violations :
    (∀ s : ModesSettings, s.wordLevel < 1 ∨ s.wordLevel > 10 →
        ValidateSettings s ≠ Except.ok ()) ∧
    (∀ s : ModesSettings, s.mode = modeRoundRobin →
        s.maxPlayers < 2 ∨ s.maxPlayers > 32 →
        ValidateSettings s ≠ Except.ok ()) ∧
    (∀ s : ModesSettings, s.mode = modeRapidFire → s.maxPlayers ≠ 2 →
        ValidateSettings s ≠ Except.ok ()) ∧
    (∀ s : ModesSettings, s.mode = modeRapidFire →
        s.timeLimit < minute ∨ s.timeLimit > 30 * minute →
        ValidateSettings s ≠ Except.ok ()) ∧
    (∀ s : ModesSettings, s.mode = modeTotalGame →
        s.maxPlayers < 2 ∨ s.maxPlayers > 8 →
        ValidateSettings s ≠ Except.ok ()) ∧
    (∀ s : ModesSettings, s.mode = modeTotalGame →
        s.timeLimit < 5 * minute ∨ s.timeLimit > hour →
        ValidateSettings s ≠ Except.ok ()) ∧
    (∀ (newId hostId : String) (t : GameType) (st : GameSettings) (now : Time),
        (createGame newId hostId t st now true).map (fun p => p.1.status)
          = Except.ok GameStatus.initializing) := by
  refine ⟨?_, ?_, ?_, ?_, ?_, ?_, ?_⟩
  · intro s hv
    unfold ValidateSettings checkWordLevel
    split_ifs <;> simp_all
  · intro s hm hv
    unfold ValidateSettings checkWordLevel
    split_ifs <;> simp_all [modeRoundRobin, modeRapidFire, modeTotalGame]
  · intro s hm hv
    unfold ValidateSettings checkWordLevel
    split_ifs <;> simp_all [modeRoundRobin, modeRapidFire, modeTotalGame]
  · intro s hm hv
    unfold ValidateSettings checkWordLevel
    split_ifs <;> simp_all [modeRoundRobin, modeRapidFire, modeTotalGame]
  · intro s hm hv
    unfold ValidateSettings checkWordLevel
    split_ifs <;> simp_all [modeRoundRobin, modeRapidFire, modeTotalGame]
  · intro s hm hv
    unfold ValidateSettings checkWordLevel
    split_ifs <;> simp_all [modeRoundRobin, modeRapidFire, modeTotalGame]
  · intro newId hostId t st now
    rfl

/-- Witness for C8 (amended) at the concrete violating settings. -/
theorem validateSettings_rejects_violations_witness :
    ValidateSettings c8ModesSettings ≠ Except.ok () :=
  validateSettings_rejects_violations.1 c8ModesSettings (Or.inr (by decide))

/-- C4 counterexample: in total-game mode with one correct attempt and zero
total attempts, the float ratio 1/0 is positive infinity and the code
applies the 1.3 accuracy bonus, returning 130, while the claimed formula
(rational division, where a zero denominator blocks the bonus) gives 100. -/
theorem calculateScore_zero_denominator :
    CalculateScore modeTotalGame 1 0 0 = 130 ∧
    specScore modeTotalGame 1 0 0 = 100 := by
  constructor
  · have h1 : goDivGeNineTenths 1 0 := by unfold goDivGeNineTenths; norm_num
    simp [CalculateScore, modeTotalGame, modeRapidFire, h1]
    norm_num [truncToInt]
  · simp [specScore, modeTotalGame, modeRapidFire]

/-- C4 (amended): CalculateScore matches the claimed formula on every input
whose total attempt count is nonzero, and on every input in a mode other
than total-game; at a zero total in total-game mode the accuracy bonus
applies exactly when the correct count is positive, because the float
division by zero produces positive infinity. The two worked examples of the
specification hold. -/
theorem calculateScore_matches_spec :
    (∀ (mode : String) (c t : Int) (avg : Rat), t ≠ 0 →
        CalculateScore mode c t avg = specScore mode c t avg) ∧
    (∀ (mode : String) (c : Int) (avg : Rat), mode ≠ modeTotalGame →
        CalculateScore mode c 0 avg = specScore mode c 0 avg) ∧
    (∀ (c : Int) (avg : Rat), 0 < c →
        CalculateScore modeTotalGame c 0 avg
          = truncToInt (((c * 100 : Int) : Rat) * (13/10))) ∧
    (∀ (c : Int) (avg : Rat), c ≤ 0 →
        CalculateScore modeTotalGame c 0 avg = c * 100) ∧
    CalculateScore modeRapidFire 5 6 3 = 750 ∧
    CalculateScore modeTotalGame 9 10 7 = 1170 := by
  refine ⟨?_, ?_, ?_, ?_, ?_, ?_⟩
  · intro mode c t avg ht
    have hgd : goDivGeNineTenths c t ↔ (9 : Rat)/10 ≤ (c : Rat)/(t : Rat) := by
      unfold goDivGeNineTenths
      rw [if_neg ht]
    simp only [CalculateScore, specScore, hgd]
    split_ifs <;>
      first
        | rfl
        | tauto
        | (exfalso; simp_all [modeRapidFire, modeTotalGame])
  · intro mode c avg hmt
    simp only [CalculateScore, specScore]
    split_ifs <;>
      first
        | rfl
        | tauto
        | (exfalso; simp_all [modeRapidFire, modeTotalGame])
  · intro c avg hc
    have h1 : goDivGeNineTenths c 0 := by
      unfold goDivGeNineTenths; rw [if_pos rfl]; exact hc
    simp [CalculateScore, modeTotalGame, modeRapidFire, h1]
  · intro c avg hc
    have h1 : ¬ goDivGeNineTenths c 0 := by
      unfold goDivGeNineTenths; rw [if_pos rfl]; exact not_lt.mpr hc
    simp [CalculateScore, modeTotalGame, modeRapidFire, h1]
  · simp [CalculateScore, modeRapidFire, show (3 : Rat) < 5 by norm_num]
    norm_num [truncToInt]
  · have h1 : goDivGeNineTenths 9 10 := by
      unfold goDivGeNineTenths
      rw [if_neg (show (10 : Int) ≠ 0 by decide)]
      norm_num
    simp [CalculateScore, modeTotalGame, modeRapidFire, h1]
    norm_num [truncToInt]

/-- Witness for C4 (amended) at a concrete nonzero total attempt count. -/
theorem calculateScore_matches_spec_witness :
    CalculateScore modeRoundRobin 5 7 6 = specScore modeRoundRobin 5 7 6 :=
  calculateScore_matches_spec.1 modeRoundRobin 5 7 6 (by decide)

/-- C5: CalculatePoints equals the placement-points formula of the
specification (30, 15, 5, otherwise 0; ten percent bonus per player beyond
two; times 1.5 for tournament matches; rounded) on every input, the worked
example gives 72, and CalculateNewRating adds the points and clamps the
result into the range 0 to 1200. -/
theorem calculatePoints_matches_spec :
    (∀ (placement playerCount : Int) (isTournament : Bool),
        CalculatePoints placement playerCount isTournament
          = specPoints placement playerCount isTournament) ∧
    CalculatePoints 1 8 true = 72 ∧
    (∀ currentRating pointsEarned : Int,
        CalculateNewRating currentRating pointsEarned
          = max 0 (min 1200 (currentRating + pointsEarned))) := by
  refine ⟨?_, ?_, ?_⟩
  · intro p n t
    simp only [CalculatePoints, specPoints, specBasePoints, goldPoints,
      silverPoints, bronzePoints]
    split_ifs <;>
      first
        | tauto
        | (refine congrArg goRound ?_ ; push_cast ; ring)
        | (rw [show ((0 : Int) : Rat) = 0 from by norm_num, zero_mul, zero_mul]
           norm_num [goRound])
  · simp only [CalculatePoints, goldPoints]
    norm_num [goRound]
  · intro r q
    simp only [CalculateNewRating]
    split_ifs <;> omega

end BigSpella
